import Mathlib

/-!
Shallow embedding of the build-mode orchestration and incremental-invalidation
layer of soong_build (cmd/soong_build/main.go): command-line flag binding, mode
selection, dependency accumulation and depfile flushing, used-environment
snapshotting, and the phase ordering of a run.

External collaborators (the blueprint analysis pipeline, the glob writer, the
symlink forest planter, the bp2build code generator, the external
work-partitioning system) are represented by the data they hand back to this
layer; where their behaviour decides a claim and their code is not part of the
orchestration file, the definition is modelled from the spec and says so in
its doc comment.
-/

namespace SoongBuild

/-- Build modes of android.SoongBuildMode as consumed by main.go. The default
mode is named AnalysisNoBazel in the source (the spec calls it NormalBuild). -/
inductive SoongBuildMode where
  | Bp2build
  | GenerateQueryView
  | ApiBp2build
  | GenerateModuleGraph
  | GenerateDocFile
  | BazelDevMode
  | BazelProdMode
  | BazelStagingMode
  | AnalysisNoBazel
  deriving DecidableEq, Repr

/-- Package-level flag variables of main.go (and the cmdlineArgs fields used by
newConfig and the runners) as they stand after flag parsing. -/
structure Args where
  topDir : String
  soongOutDir : String
  usedEnvFile : String
  moduleGraphFile : String
  docFile : String
  bazelQueryViewDir : String
  bazelApiBp2buildDir : String
  bp2buildMarker : String
  outFile : String
  bazelMode : Bool
  bazelModeDev : Bool
  bazelModeStaging : Bool
  deriving DecidableEq, Repr

/-- The mode-relevant command-line flags as given on the command line, one
field per flag registration in init() (main.go lines 63-104). A Bool field is
true when the flag was passed as true; a String field is the given value, with
the empty string for an absent flag (their registered defaults are empty,
except -o which defaults to build.ninja; the default is part of the concrete
inputs used below, not of this structure). -/
structure CmdFlags where
  top : String
  soongOut : String
  usedEnv : String
  moduleGraphFileFlag : String
  soongDocs : String
  bazelQueryViewDirFlag : String
  bazelApiBp2buildDirFlag : String
  bp2buildMarkerFlag : String
  o : String
  bazelModeFlag : Bool
  bazelModeStagingFlag : Bool
  bazelModeDevFlag : Bool
  deriving DecidableEq, Repr

/-- parseFlags: the effect of flag.Parse() given the registrations in init()
(main.go lines 63-104) on the variables later read by newConfig. Both the
bazel-mode flag (line 91) and the bazel-mode-staging flag (line 92) are
registered against the same variable cmdlineArgs.BazelMode; no flag is
registered against cmdlineArgs.BazelModeStaging, which therefore keeps its
zero value false. -/
def parseFlags (f : CmdFlags) : Args :=
  { topDir := f.top
    soongOutDir := f.soongOut
    usedEnvFile := f.usedEnv
    moduleGraphFile := f.moduleGraphFileFlag
    docFile := f.soongDocs
    bazelQueryViewDir := f.bazelQueryViewDirFlag
    bazelApiBp2buildDir := f.bazelApiBp2buildDirFlag
    bp2buildMarker := f.bp2buildMarkerFlag
    outFile := f.o
    bazelMode := f.bazelModeFlag || f.bazelModeStagingFlag
    bazelModeDev := f.bazelModeDevFlag
    bazelModeStaging := false }

/-- selectBuildMode: the mode-selection if-chain of newConfig
(main.go lines 130-151). -/
def selectBuildMode (a : Args) : SoongBuildMode :=
  if a.bp2buildMarker ≠ "" then SoongBuildMode.Bp2build
  else if a.bazelQueryViewDir ≠ "" then SoongBuildMode.GenerateQueryView
  else if a.bazelApiBp2buildDir ≠ "" then SoongBuildMode.ApiBp2build
  else if a.moduleGraphFile ≠ "" then SoongBuildMode.GenerateModuleGraph
  else if a.docFile ≠ "" then SoongBuildMode.GenerateDocFile
  else if a.bazelModeDev then SoongBuildMode.BazelDevMode
  else if a.bazelMode then SoongBuildMode.BazelProdMode
  else if a.bazelModeStaging then SoongBuildMode.BazelStagingMode
  else SoongBuildMode.AnalysisNoBazel

/-- specSelectMode: the priority order exactly as written in spec section 4.1,
for comparison with the source function selectBuildMode. The spec names the
final fallback NormalBuild, which is the source constructor AnalysisNoBazel. -/
def specSelectMode (a : Args) : SoongBuildMode :=
  if a.bp2buildMarker ≠ "" then SoongBuildMode.Bp2build
  else if a.bazelQueryViewDir ≠ "" then SoongBuildMode.GenerateQueryView
  else if a.bazelApiBp2buildDir ≠ "" then SoongBuildMode.ApiBp2build
  else if a.moduleGraphFile ≠ "" then SoongBuildMode.GenerateModuleGraph
  else if a.docFile ≠ "" then SoongBuildMode.GenerateDocFile
  else if a.bazelModeDev then SoongBuildMode.BazelDevMode
  else if a.bazelMode then SoongBuildMode.BazelProdMode
  else if a.bazelModeStaging then SoongBuildMode.BazelStagingMode
  else SoongBuildMode.AnalysisNoBazel

/-- Modelled from the spec: Config.IsMixedBuildsEnabled of the android package
(an external collaborator of main.go, not part of this file). Per spec
sections 3 and 4.5, mixed building is active exactly when one of the three
bazel analysis modes was selected. -/
def isMixedBuildsEnabled (mode : SoongBuildMode) : Bool :=
  mode = SoongBuildMode.BazelProdMode || mode = SoongBuildMode.BazelDevMode ||
    mode = SoongBuildMode.BazelStagingMode

/-- Whether a path is absolute (its first byte is a slash), as tested by
filepath.IsAbs on linux. -/
def isAbs (path : String) : Bool :=
  match path.data with
  | List.cons c _ => c = '/'
  | List.nil => false

/-- shared.JoinPath of the shared package (a path helper outside this file):
returns the path itself when it is absolute, and otherwise joins it under the
base directory with a separator. Path cleaning done by filepath.Join is not
reproduced; no claim depends on it. -/
def joinPath (base path : String) : String :=
  if isAbs path then path else base ++ "/" ++ path

/-- Outcome of an os.ReadFile call: the content, a does-not-exist failure
(os.IsNotExist holds of the error), or any other read failure. -/
inductive ReadResult where
  | ok (data : String)
  | notExist
  | ioFailure
  deriving DecidableEq, Repr

/-- A file on disk: its byte content and its modification time. Time is an
abstract counter advanced by every write or touch. -/
structure FileInfo where
  content : String
  mtime : Nat
  deriving DecidableEq, Repr

/-- The filesystem state threaded through the environment-flush step: the
files present, the set of paths whose reads fail for a reason other than
non-existence, and the abstract clock. -/
structure FS where
  files : String → Option FileInfo
  faulty : String → Bool
  clock : Nat

/-- os.ReadFile against the modelled filesystem. -/
def readFileRes (fs : FS) (path : String) : ReadResult :=
  if fs.faulty path then ReadResult.ioFailure
  else
    match fs.files path with
    | some fi => ReadResult.ok fi.content
    | none => ReadResult.notExist

/-- os.WriteFile against the modelled filesystem: the file now holds the given
content with the current clock as modification time, and the clock advances. -/
def writeFile (fs : FS) (path data : String) : FS :=
  { fs with
    files := fun p => if p = path then some (FileInfo.mk data fs.clock) else fs.files p
    clock := fs.clock + 1 }

/-- touch (main.go lines 501-520): open with O_APPEND, O_CREATE and O_WRONLY
(which creates an empty file when absent and keeps the content otherwise),
close, then Chtimes to the current time. Open and Chtimes failures, which
os.Exit the process, are not modelled: no claim concerns them. -/
def touch (fs : FS) (path : String) : FS :=
  let kept : String :=
    match fs.files path with
    | some fi => fi.content
    | none => ""
  { fs with
    files := fun p => if p = path then some (FileInfo.mk kept fs.clock) else fs.files p
    clock := fs.clock + 1 }

/-- writeUsedEnvironmentFile (main.go lines 470-499). The envData argument is
the freshly serialized used-variable map (shared.EnvFileContents of
configuration.EnvDeps(); its serialization error path at line 477, and the
os.WriteFile error path at line 491, both of which os.Exit, are not modelled:
no claim concerns them). When the usedEnvFile flag is empty the function
returns immediately. Otherwise it probes the prior snapshot: a read failure
other than non-existence is fatal (modelled as Except.error, standing for the
diagnostic plus os.Exit(1)); identical prior content is a no-op; in the
remaining cases the snapshot is written and the final output file touched. -/
def writeUsedEnvironmentFile (usedEnvFile topDir envData finalOutputFile : String)
    (fs : FS) : Except String FS :=
  if usedEnvFile = "" then Except.ok fs
  else
    let path := joinPath topDir usedEnvFile
    match readFileRes fs path with
    | ReadResult.ioFailure =>
        Except.error ("error reading used environment file " ++ usedEnvFile)
    | ReadResult.ok preexistingData =>
        if preexistingData = envData then Except.ok fs
        else
          Except.ok (touch (writeFile fs path envData) (joinPath topDir finalOutputFile))
    | ReadResult.notExist =>
        Except.ok (touch (writeFile fs path envData) (joinPath topDir finalOutputFile))

/-- One flushed make-style dependency record, as produced by writeDepFile
(main.go lines 333-342): the depfile path on disk, the output path the record
is keyed by, and the listed dependency paths. -/
structure DepFileWrite where
  depFile : String
  output : String
  deps : List String
  deriving DecidableEq, Repr

/-- writeDepFile (main.go lines 333-342): deptools.WriteDepFile at
shared.JoinPath(topDir, outputFile + ".d"), keyed by outputFile, listing
ninjaDeps. The write-error path (os.Exit at line 340) is not modelled: no
claim concerns it. -/
def writeDepFile (topDir outputFile : String) (ninjaDeps : List String) : DepFileWrite :=
  DepFileWrite.mk (joinPath topDir (outputFile ++ ".d")) outputFile ninjaDeps

/-- Phase events observed during a run, used to state the ordering claims. -/
inductive Event where
  | modeSelected
  | pipelineStart
  | hookInvoked
  | buildActionsFinalized
  | depFileFlushed
  | usedEnvFlushed
  deriving DecidableEq, Repr

/-- bootstrap.StopBefore values used by main.go. -/
inductive StopBefore where
  | DoEverything
  | StopBeforePrepareBuildActions
  | StopBeforeWriteNinja
  deriving DecidableEq, Repr

/-- Data handed back by the external collaborators of one run: the dependency
paths returned by the analysis pipeline, the glob list files, the directories
the symlink forest planter read, the additional dependencies of the code
generator, the outcome of listing module paths, the outcome of reading the
external work-partitioning system's dependency-list file (readBazelPaths,
main.go lines 709-718), the outcome of reading the bazel.list file
(getExistingBazelRelatedFiles, lines 578-590), the configuration's product
variables file name, and the serialized used-environment content. -/
structure RunEnv where
  blueprintDeps : List String
  globListFiles : List String
  symlinkForestDeps : List String
  codegenAdditionalDeps : List String
  listModulePathsResult : Except String (List String)
  bazelReadResult : Except String (List String)
  existingBazelFilesResult : Except String (List String)
  productVariablesFileName : String
  envData : String

/-- Modelled from the spec: bootstrap.RunBlueprint, the analysis pipeline
entry point of the external blueprint collaborator (spec section 6). The run
starts the pipeline; when it is not stopped before build-action preparation it
invokes a registered BeforePrepareBuildActions hook exactly once, immediately
before build actions are finalized (spec sections 4.5 and 6); it returns the
dependency paths it read. -/
def runBlueprintModel (stopBefore : StopBefore) (hookRegistered : Bool) (cfg : RunEnv) :
    List Event × List String :=
  (List.cons Event.pipelineStart
    (if stopBefore = StopBefore.StopBeforePrepareBuildActions then []
     else (if hookRegistered then [Event.hookInvoked] else []) ++
       [Event.buildActionsFinalized]),
   cfg.blueprintDeps)

/-- runMixedModeBuild (main.go lines 164-187): register the bazel hook, run
the full pipeline, append the extra dependencies, read the paths declared by
the external work-partitioning system (a failure there panics, modelled as
Except.error), append them and the glob list files, and flush the depfile
keyed by the ninja output file. -/
def runMixedModeBuild (cfg : RunEnv) (a : Args) (extraNinjaDeps : List String) :
    Except String (List Event × DepFileWrite) :=
  let res := runBlueprintModel StopBefore.DoEverything true cfg
  let ninjaDeps := res.2 ++ extraNinjaDeps
  match cfg.bazelReadResult with
  | Except.error e => Except.error ("Bazel deps file not found: " ++ e)
  | Except.ok bazelPaths =>
      let ninjaDeps := ninjaDeps ++ bazelPaths
      let ninjaDeps := ninjaDeps ++ cfg.globListFiles
      Except.ok (res.1 ++ [Event.depFileFlushed], writeDepFile a.topDir a.outFile ninjaDeps)

/-- runBp2Build (main.go lines 605-688): dependency accumulation starts from
the extra dependencies, then the pipeline run (stopped before build-action
preparation), the glob list files, the symlink forest's visited directories,
and the code generator's additional dependencies; the depfile is flushed keyed
by the bp2build marker, which is then touched. The exclude-list computation
(bazelArtifacts, getPathsToIgnoredBuildFiles, getTemporaryExcludes) feeds only
the planter, which is represented by its returned visited directories; the
fatal failure of reading the bazel.list file (lines 652-656) is modelled. -/
def runBp2Build (cfg : RunEnv) (a : Args) (extraNinjaDeps : List String) :
    Except String (List Event × DepFileWrite) :=
  let ninjaDeps := extraNinjaDeps
  let res := runBlueprintModel StopBefore.StopBeforePrepareBuildActions false cfg
  let ninjaDeps := ninjaDeps ++ res.2
  let ninjaDeps := ninjaDeps ++ cfg.globListFiles
  match cfg.existingBazelFilesResult with
  | Except.error e => Except.error e
  | Except.ok _ =>
      let ninjaDeps := ninjaDeps ++ cfg.symlinkForestDeps
      let ninjaDeps := ninjaDeps ++ cfg.codegenAdditionalDeps
      Except.ok (res.1 ++ [Event.depFileFlushed],
        writeDepFile a.topDir a.bp2buildMarker ninjaDeps)

/-- runApiBp2build (main.go lines 205-269): list the module paths (a failure
panics), append them to the extra dependencies, run the pipeline stopped
before build-action preparation, append the glob list files, the code
generator's additional dependencies (the bazel.list read inside
apiBuildFileExcludes can exit fatally, modelled), then the symlink forest's
visited directories; flush the depfile keyed by the api_bp2build workspace
marker and return that marker. -/
def runApiBp2build (cfg : RunEnv) (a : Args) (extraNinjaDeps : List String) :
    Except String (List Event × DepFileWrite × String) :=
  match cfg.listModulePathsResult with
  | Except.error e => Except.error e
  | Except.ok paths =>
      let extraNinjaDeps := extraNinjaDeps ++ paths
      let res := runBlueprintModel StopBefore.StopBeforePrepareBuildActions false cfg
      let ninjaDeps := res.2 ++ extraNinjaDeps
      let ninjaDeps := ninjaDeps ++ cfg.globListFiles
      let ninjaDeps := ninjaDeps ++ cfg.codegenAdditionalDeps
      match cfg.existingBazelFilesResult with
      | Except.error e => Except.error e
      | Except.ok _ =>
          let ninjaDeps := ninjaDeps ++ cfg.symlinkForestDeps
          let workspaceMarkerFile := joinPath a.soongOutDir "api_bp2build" ++ ".marker"
          Except.ok (res.1 ++ [Event.depFileFlushed],
            writeDepFile a.topDir workspaceMarkerFile ninjaDeps, workspaceMarkerFile)

/-- doChosenActivity (main.go lines 347-401): dispatch on the selected mode,
run the pipeline, flush exactly one depfile, and return the terminal output
file. In the queryview, module-graph and doc-file branches the respective
terminal actions (createBazelWorkspace, writeJsonModuleGraphAndActions,
writeDocs) only produce their own outputs and are not represented; their
fatal-error exits are not modelled, no claim concerns them. -/
def doChosenActivity (mode : SoongBuildMode) (cfg : RunEnv) (a : Args)
    (extraNinjaDeps : List String) :
    Except String (List Event × List DepFileWrite × String) :=
  if mode = SoongBuildMode.Bp2build then
    match runBp2Build cfg a extraNinjaDeps with
    | Except.error e => Except.error e
    | Except.ok (events, w) => Except.ok (events, [w], a.bp2buildMarker)
  else if isMixedBuildsEnabled mode then
    match runMixedModeBuild cfg a extraNinjaDeps with
    | Except.error e => Except.error e
    | Except.ok (events, w) => Except.ok (events, [w], a.outFile)
  else if mode = SoongBuildMode.ApiBp2build then
    match runApiBp2build cfg a extraNinjaDeps with
    | Except.error e => Except.error e
    | Except.ok (events, w, marker) => Except.ok (events, [w], marker)
  else
    let stopBefore :=
      if mode = SoongBuildMode.GenerateModuleGraph then StopBefore.StopBeforeWriteNinja
      else if mode = SoongBuildMode.GenerateQueryView ∨ mode = SoongBuildMode.GenerateDocFile
        then StopBefore.StopBeforePrepareBuildActions
      else StopBefore.DoEverything
    let res := runBlueprintModel stopBefore false cfg
    let ninjaDeps := res.2 ++ extraNinjaDeps
    let ninjaDeps := ninjaDeps ++ cfg.globListFiles
    if mode = SoongBuildMode.GenerateQueryView then
      let queryviewMarkerFile := a.bazelQueryViewDir ++ ".marker"
      Except.ok (res.1 ++ [Event.depFileFlushed],
        [writeDepFile a.topDir queryviewMarkerFile ninjaDeps], queryviewMarkerFile)
    else if mode = SoongBuildMode.GenerateModuleGraph then
      Except.ok (res.1 ++ [Event.depFileFlushed],
        [writeDepFile a.topDir a.moduleGraphFile ninjaDeps], a.moduleGraphFile)
    else if mode = SoongBuildMode.GenerateDocFile then
      Except.ok (res.1 ++ [Event.depFileFlushed],
        [writeDepFile a.topDir a.docFile ninjaDeps], a.docFile)
    else
      Except.ok (res.1 ++ [Event.depFileFlushed],
        [writeDepFile a.topDir a.outFile ninjaDeps], a.outFile)

/-- mainRun (main.go lines 431-468 plus the mode selection of newConfig):
parse the flags, select the mode, seed the extra dependencies with the product
variables file name and the used-environment file path, run the chosen
activity, then flush the used-environment file against the filesystem state.
Debug-only additions (delve), the ALLOW_MISSING_DEPENDENCIES toggle and
metrics writing are not modelled: no claim concerns them. The returned events
record the phase order of the run. -/
def mainRun (f : CmdFlags) (cfg : RunEnv) (fs : FS) :
    Except String (List Event × List DepFileWrite × String × FS) :=
  let a := parseFlags f
  let extraNinjaDeps := [cfg.productVariablesFileName, a.usedEnvFile]
  match doChosenActivity (selectBuildMode a) cfg a extraNinjaDeps with
  | Except.error e => Except.error e
  | Except.ok (events, writes, finalOutputFile) =>
      match writeUsedEnvironmentFile a.usedEnvFile a.topDir cfg.envData finalOutputFile fs with
      | Except.error e => Except.error e
      | Except.ok fs1 =>
          Except.ok (List.cons Event.modeSelected (events ++ [Event.usedEnvFlushed]),
            writes, finalOutputFile, fs1)

/-- Whether event a occurs and its first occurrence is strictly before the
first occurrence of event b in the trace. -/
def precedesB (a b : Event) (tr : List Event) : Bool :=
  match tr.findIdx? (fun e => e == a), tr.findIdx? (fun e => e == b) with
  | some i, some j => decide (i < j)
  | _, _ => false

/-- A sample collaborator environment in which every external call succeeds. -/
def cfg0 : RunEnv :=
  RunEnv.mk ["bp1"] ["glob1"] ["sym1"] ["cg1"] (Except.ok ["mp1"]) (Except.ok ["bz1"])
    (Except.ok ["BUILD"]) "product.json" "ENV"

/-- A sample collaborator environment in which reading the external
work-partitioning system's dependency-list file fails. -/
def cfgBazelErr : RunEnv :=
  RunEnv.mk ["bp1"] ["glob1"] ["sym1"] ["cg1"] (Except.ok ["mp1"]) (Except.error "boom")
    (Except.ok ["BUILD"]) "product.json" "ENV"

/-- The empty, fault-free filesystem. -/
def fs0 : FS := FS.mk (fun _ => none) (fun _ => false) 0

/-- A filesystem on which every read fails for a reason other than
non-existence. -/
def fsFaulty : FS := FS.mk (fun _ => none) (fun _ => true) 0

/-- A filesystem holding a stale used-environment snapshot at T/u. -/
def fsStale : FS :=
  FS.mk (fun p => if p = "T/u" then some (FileInfo.mk "OLD" 0) else none) (fun _ => false) 1

/-- A command line passing only the doc-file flag (with the default ninja
output file name). -/
def flagsDoc : CmdFlags :=
  CmdFlags.mk "T" "out/soong" "u" "" "docs/soong_build.html" "" "" "" "build.ninja"
    false false false

/-- A command line passing only the bazel-mode-staging flag (with the default
ninja output file name). -/
def flagsStagingOnly : CmdFlags :=
  CmdFlags.mk "T" "out/soong" "u" "" "" "" "" "" "build.ninja" false true false

/-- A command line passing only the bazel-mode flag, selecting the mixed
production mode. -/
def flagsProd : CmdFlags :=
  CmdFlags.mk "T" "out/soong" "u" "" "" "" "" "" "build.ninja" true false false

/-- A command line passing only the bp2build-marker flag. -/
def flagsBp2 : CmdFlags :=
  CmdFlags.mk "T" "out/soong" "u" "" "" "" "" "bp2build.marker" "build.ninja"
    false false false

/-- A command line passing only the module-graph-file flag. -/
def flagsGraph : CmdFlags :=
  CmdFlags.mk "T" "out/soong" "u" "graph.json" "" "" "" "" "build.ninja" false false false

end SoongBuild

namespace SoongBuild

/-- C1: mode selection is a pure, total, deterministic function of the flag
set that follows the fixed priority order of spec section 4.1 (the source
chain selectBuildMode agrees with the spec chain specSelectMode on every flag
combination), and conflicting flags raise no error but are resolved silently
by priority: a set bp2build marker yields Bp2build whatever the other flags
are, in particular together with a set module-graph path. -/
theorem selectBuildMode_follows_spec_priority :
    (∀ a : Args, selectBuildMode a = specSelectMode a) ∧
    (∀ a : Args, a.bp2buildMarker ≠ "" → selectBuildMode a = SoongBuildMode.Bp2build) := by
  constructor
  · intro a
    rfl
  · intro a h
    simp [selectBuildMode, h]

/-- Witness for C1: with the bp2build marker and the module-graph path both
set, the selected mode is Bp2build. -/
theorem selectBuildMode_follows_spec_priority_witness :
    selectBuildMode
      (Args.mk "T" "out/soong" "u" "graph.json" "" "" "" "bp2build.marker" "build.ninja"
        false false false) = SoongBuildMode.Bp2build :=
  selectBuildMode_follows_spec_priority.2 _ (by decide)

/-- C7 (code bug): a command line setting only the bazel-mode-staging flag
selects BazelProdMode, not BazelStagingMode, because init() registers the
bazel-mode-staging flag against cmdlineArgs.BazelMode (main.go line 92) while
the selection chain in newConfig (line 147) tests cmdlineArgs.BazelModeStaging,
which no flag registration ever sets; the flags parse to a state with
bazelMode true and bazelModeStaging false. -/
theorem bazel_mode_staging_flag_selects_prod :
    selectBuildMode (parseFlags flagsStagingOnly) = SoongBuildMode.BazelProdMode ∧
    (parseFlags flagsStagingOnly).bazelMode = true ∧
    (parseFlags flagsStagingOnly).bazelModeStaging = false := by
  refine ⟨?_, ?_, ?_⟩ <;> rfl

/-- C9: when the used-env flag is the empty string, the environment-flush step
is a complete no-op on every filesystem state: the state is returned unchanged
and no error is raised. -/
theorem writeUsedEnvironmentFile_noop_when_unset
    (topDir envData finalOutputFile : String) (fs : FS) :
    writeUsedEnvironmentFile "" topDir envData finalOutputFile fs = Except.ok fs := by
  rfl

/-- C2: postcondition of the used-environment flush, for a configured snapshot
path whose probe does not fault. If no prior file exists at the snapshot path,
the serialized content is written there and the terminal output file is
touched (its modification time becomes at least the clock at entry); if the
prior file is byte-identical to the serialized content, the filesystem state
is returned completely unchanged; if the prior file differs, the snapshot is
rewritten with the serialized content and the terminal output file ends up
with a modification time no older than the just-written snapshot's. -/
theorem writeUsedEnvironmentFile_postcondition
    (usedEnvFile topDir envData finalOutputFile : String) (fs : FS)
    (hne : usedEnvFile ≠ "")
    (hf : fs.faulty (joinPath topDir usedEnvFile) = false) :
    (fs.files (joinPath topDir usedEnvFile) = none →
      ∃ fs1 : FS,
        writeUsedEnvironmentFile usedEnvFile topDir envData finalOutputFile fs =
          Except.ok fs1 ∧
        (fs1.files (joinPath topDir usedEnvFile)).map FileInfo.content = some envData ∧
        ∃ fo : FileInfo, fs1.files (joinPath topDir finalOutputFile) = some fo ∧
          fs.clock ≤ fo.mtime) ∧
    (∀ fi : FileInfo, fs.files (joinPath topDir usedEnvFile) = some fi →
      fi.content = envData →
        writeUsedEnvironmentFile usedEnvFile topDir envData finalOutputFile fs =
          Except.ok fs) ∧
    (∀ fi : FileInfo, fs.files (joinPath topDir usedEnvFile) = some fi →
      fi.content ≠ envData →
        ∃ fs1 : FS,
          writeUsedEnvironmentFile usedEnvFile topDir envData finalOutputFile fs =
            Except.ok fs1 ∧
          ∃ fi1 : FileInfo, fs1.files (joinPath topDir usedEnvFile) = some fi1 ∧
            fi1.content = envData ∧
          ∃ fo : FileInfo, fs1.files (joinPath topDir finalOutputFile) = some fo ∧
            fi1.mtime ≤ fo.mtime) := by
  refine ⟨?_, ?_, ?_⟩
  · intro hnone
    refine ⟨touch (writeFile fs (joinPath topDir usedEnvFile) envData)
      (joinPath topDir finalOutputFile), ?_, ?_, ?_⟩
    · simp [writeUsedEnvironmentFile, hne, readFileRes, hf, hnone]
    · by_cases hpq : joinPath topDir usedEnvFile = joinPath topDir finalOutputFile
      · simp [touch, writeFile, hpq]
      · simp [touch, writeFile, hpq, Ne.symm hpq]
    · by_cases hpq : joinPath topDir usedEnvFile = joinPath topDir finalOutputFile
      · simp [touch, writeFile, hpq]
      · simp [touch, writeFile, hpq]
  · intro fi hsome heq
    simp [writeUsedEnvironmentFile, hne, readFileRes, hf, hsome, heq]
  · intro fi hsome hneq
    refine ⟨touch (writeFile fs (joinPath topDir usedEnvFile) envData)
      (joinPath topDir finalOutputFile), ?_, ?_⟩
    · simp [writeUsedEnvironmentFile, hne, readFileRes, hf, hsome, hneq]
    · by_cases hpq : joinPath topDir usedEnvFile = joinPath topDir finalOutputFile
      · simp [touch, writeFile, hpq]
      · simp [touch, writeFile, hpq, Ne.symm hpq]

/-- Witness for C2: flushing the snapshot ENV to T/u on the empty filesystem
(no prior snapshot) writes it and touches the terminal output T/build.ninja. -/
theorem writeUsedEnvironmentFile_postcondition_witness :
    ∃ fs1 : FS,
      writeUsedEnvironmentFile "u" "T" "ENV" "build.ninja" fs0 = Except.ok fs1 ∧
      (fs1.files (joinPath "T" "u")).map FileInfo.content = some "ENV" ∧
      ∃ fo : FileInfo, fs1.files (joinPath "T" "build.ninja") = some fo ∧
        fs0.clock ≤ fo.mtime :=
  (writeUsedEnvironmentFile_postcondition "u" "T" "ENV" "build.ninja" fs0
    (by decide) rfl).1 rfl

/-- C8: probing for the prior used-environment snapshot treats a
does-not-exist read failure as no prior snapshot, going on to write the
serialized content, while a read failure for any other reason aborts the run
fatally (modelled as the error result standing for the diagnostic and the
non-zero exit). -/
theorem writeUsedEnvironmentFile_read_failure_handling
    (usedEnvFile topDir envData finalOutputFile : String) (fs : FS)
    (hne : usedEnvFile ≠ "") :
    (fs.faulty (joinPath topDir usedEnvFile) = true →
      writeUsedEnvironmentFile usedEnvFile topDir envData finalOutputFile fs =
        Except.error ("error reading used environment file " ++ usedEnvFile)) ∧
    (fs.faulty (joinPath topDir usedEnvFile) = false →
      fs.files (joinPath topDir usedEnvFile) = none →
        ∃ fs1 : FS,
          writeUsedEnvironmentFile usedEnvFile topDir envData finalOutputFile fs =
            Except.ok fs1 ∧
          (fs1.files (joinPath topDir usedEnvFile)).map FileInfo.content = some envData) := by
  constructor
  · intro hf
    simp [writeUsedEnvironmentFile, hne, readFileRes, hf]
  · intro hf hnone
    refine ⟨touch (writeFile fs (joinPath topDir usedEnvFile) envData)
      (joinPath topDir finalOutputFile), ?_, ?_⟩
    · simp [writeUsedEnvironmentFile, hne, readFileRes, hf, hnone]
    · by_cases hpq : joinPath topDir usedEnvFile = joinPath topDir finalOutputFile
      · simp [touch, writeFile, hpq]
      · simp [touch, writeFile, hpq]

/-- Witness for C8: on a filesystem whose reads all fault, the flush aborts
with the fatal read diagnostic; on the empty fault-free filesystem the probe's
does-not-exist failure leads to the snapshot being written. -/
theorem writeUsedEnvironmentFile_read_failure_handling_witness :
    writeUsedEnvironmentFile "u" "T" "ENV" "build.ninja" fsFaulty =
      Except.error ("error reading used environment file " ++ "u") ∧
    ∃ fs1 : FS,
      writeUsedEnvironmentFile "u" "T" "ENV" "build.ninja" fs0 = Except.ok fs1 ∧
      (fs1.files (joinPath "T" "u")).map FileInfo.content = some "ENV" :=
  ⟨(writeUsedEnvironmentFile_read_failure_handling "u" "T" "ENV" "build.ninja" fsFaulty
      (by decide)).1 rfl,
   (writeUsedEnvironmentFile_read_failure_handling "u" "T" "ENV" "build.ninja" fs0
      (by decide)).2 rfl rfl⟩

/-- Helper: what a successful bp2build run flushes. -/
theorem runBp2Build_ok_elim (cfg : RunEnv) (a : Args) (extra : List String)
    (ev : List Event) (w : DepFileWrite)
    (h : runBp2Build cfg a extra = Except.ok (ev, w)) :
    ev = [Event.pipelineStart, Event.depFileFlushed] ∧
    w.output = a.bp2buildMarker ∧
    w.depFile = joinPath a.topDir (a.bp2buildMarker ++ ".d") ∧
    (∀ x ∈ extra, x ∈ w.deps) ∧ (∀ x ∈ cfg.symlinkForestDeps, x ∈ w.deps) := by
  rcases w with ⟨df, o, deps⟩
  rcases hce : cfg.existingBazelFilesResult with e | srcs <;>
    simp [runBp2Build, runBlueprintModel, writeDepFile, hce] at h
  obtain ⟨hev, hdf, ho, hdeps⟩ := h
  subst hev hdf ho hdeps
  refine ⟨rfl, rfl, rfl, ?_, ?_⟩ <;> intro x hx <;> simp [List.mem_append] <;> tauto

/-- Helper: what a successful mixed-mode run flushes. -/
theorem runMixedModeBuild_ok_elim (cfg : RunEnv) (a : Args) (extra : List String)
    (ev : List Event) (w : DepFileWrite)
    (h : runMixedModeBuild cfg a extra = Except.ok (ev, w)) :
    ev = [Event.pipelineStart, Event.hookInvoked, Event.buildActionsFinalized,
      Event.depFileFlushed] ∧
    w.output = a.outFile ∧
    w.depFile = joinPath a.topDir (a.outFile ++ ".d") ∧
    (∀ x ∈ extra, x ∈ w.deps) := by
  rcases w with ⟨df, o, deps⟩
  rcases hbz : cfg.bazelReadResult with e | paths <;>
    simp [runMixedModeBuild, runBlueprintModel, writeDepFile, hbz] at h
  obtain ⟨hev, hdf, ho, hdeps⟩ := h
  subst hev hdf ho hdeps
  refine ⟨rfl, rfl, rfl, ?_⟩
  intro x hx
  simp [List.mem_append]
  tauto

/-- Helper: what a successful api_bp2build run flushes and returns. -/
theorem runApiBp2build_ok_elim (cfg : RunEnv) (a : Args) (extra : List String)
    (ev : List Event) (w : DepFileWrite) (marker : String)
    (h : runApiBp2build cfg a extra = Except.ok (ev, w, marker)) :
    ev = [Event.pipelineStart, Event.depFileFlushed] ∧
    marker = joinPath a.soongOutDir "api_bp2build" ++ ".marker" ∧
    w.output = marker ∧
    w.depFile = joinPath a.topDir (marker ++ ".d") ∧
    (∀ x ∈ extra, x ∈ w.deps) ∧ (∀ x ∈ cfg.symlinkForestDeps, x ∈ w.deps) := by
  rcases w with ⟨df, o, deps⟩
  rcases hmp : cfg.listModulePathsResult with e | paths <;>
    rcases hce : cfg.existingBazelFilesResult with e2 | srcs <;>
      simp [runApiBp2build, runBlueprintModel, writeDepFile, hmp, hce] at h
  obtain ⟨hev, ⟨hdf, ho, hdeps⟩, hmk⟩ := h
  subst hev hdf ho hdeps hmk
  refine ⟨rfl, rfl, rfl, rfl, ?_, ?_⟩ <;> intro x hx <;> simp [List.mem_append] <;> tauto

/-- Helper: what any successful doChosenActivity run flushes: exactly one
dependency record, keyed by the returned terminal output, written next to it,
containing every extra dependency; the event trace takes one of three shapes,
the mixed-build shape exactly in mixed mode; the terminal output per mode; and
in the two forest-planting modes the record also lists every directory the
planter visited. -/
theorem doChosenActivity_ok_elim (mode : SoongBuildMode) (cfg : RunEnv) (a : Args)
    (extra : List String) (events : List Event) (writes : List DepFileWrite) (out : String)
    (h : doChosenActivity mode cfg a extra = Except.ok (events, writes, out)) :
    ∃ w : DepFileWrite, writes = [w] ∧ w.output = out ∧
      w.depFile = joinPath a.topDir (out ++ ".d") ∧
      (∀ x ∈ extra, x ∈ w.deps) ∧
      ((mode = SoongBuildMode.Bp2build ∨ mode = SoongBuildMode.ApiBp2build) →
        ∀ x ∈ cfg.symlinkForestDeps, x ∈ w.deps) ∧
      (events = [Event.pipelineStart, Event.depFileFlushed] ∨
       events = [Event.pipelineStart, Event.buildActionsFinalized, Event.depFileFlushed] ∨
       events = [Event.pipelineStart, Event.hookInvoked, Event.buildActionsFinalized,
         Event.depFileFlushed]) ∧
      (isMixedBuildsEnabled mode = true →
        events = [Event.pipelineStart, Event.hookInvoked, Event.buildActionsFinalized,
          Event.depFileFlushed]) ∧
      (mode = SoongBuildMode.GenerateModuleGraph → out = a.moduleGraphFile) ∧
      (mode = SoongBuildMode.Bp2build → out = a.bp2buildMarker) ∧
      (mode = SoongBuildMode.GenerateQueryView → out = a.bazelQueryViewDir ++ ".marker") ∧
      (mode = SoongBuildMode.ApiBp2build →
        out = joinPath a.soongOutDir "api_bp2build" ++ ".marker") ∧
      (mode = SoongBuildMode.GenerateDocFile → out = a.docFile) ∧
      ((mode = SoongBuildMode.AnalysisNoBazel ∨ isMixedBuildsEnabled mode = true) →
        out = a.outFile) := by
  cases mode with
  | Bp2build =>
      rcases hrb : runBp2Build cfg a extra with e | ⟨ev, w⟩ <;>
        simp [doChosenActivity, hrb] at h
      obtain ⟨hev, hw, hout⟩ := h
      obtain ⟨he, ho, hd, hx, hs⟩ := runBp2Build_ok_elim cfg a extra ev w hrb
      subst hev hw hout
      exact ⟨w, rfl, ho, hd, hx, fun _ => hs, Or.inl he, by simp [isMixedBuildsEnabled],
        by simp, fun _ => rfl, by simp, by simp, by simp, by simp [isMixedBuildsEnabled]⟩
  | ApiBp2build =>
      rcases hra : runApiBp2build cfg a extra with e | ⟨ev, w, marker⟩ <;>
        simp [doChosenActivity, isMixedBuildsEnabled, hra] at h
      obtain ⟨hev, hw, hout⟩ := h
      obtain ⟨he, hm, ho, hd, hx, hs⟩ := runApiBp2build_ok_elim cfg a extra ev w marker hra
      subst hev hw hout
      refine ⟨w, rfl, ho, by rw [hd, hm], hx, fun _ => hs, Or.inl he,
        by simp [isMixedBuildsEnabled], by simp, by simp, by simp, fun _ => hm.symm ▸ rfl,
        by simp, by simp [isMixedBuildsEnabled]⟩
  | BazelDevMode =>
      rcases hrm : runMixedModeBuild cfg a extra with e | ⟨ev, w⟩ <;>
        simp [doChosenActivity, isMixedBuildsEnabled, hrm] at h
      obtain ⟨hev, hw, hout⟩ := h
      obtain ⟨he, ho, hd, hx⟩ := runMixedModeBuild_ok_elim cfg a extra ev w hrm
      subst hev hw hout
      exact ⟨w, rfl, ho, hd, hx, by simp, Or.inr (Or.inr he), fun _ => he, by simp, by simp,
        by simp, by simp, by simp, fun _ => rfl⟩
  | BazelProdMode =>
      rcases hrm : runMixedModeBuild cfg a extra with e | ⟨ev, w⟩ <;>
        simp [doChosenActivity, isMixedBuildsEnabled, hrm] at h
      obtain ⟨hev, hw, hout⟩ := h
      obtain ⟨he, ho, hd, hx⟩ := runMixedModeBuild_ok_elim cfg a extra ev w hrm
      subst hev hw hout
      exact ⟨w, rfl, ho, hd, hx, by simp, Or.inr (Or.inr he), fun _ => he, by simp, by simp,
        by simp, by simp, by simp, fun _ => rfl⟩
  | BazelStagingMode =>
      rcases hrm : runMixedModeBuild cfg a extra with e | ⟨ev, w⟩ <;>
        simp [doChosenActivity, isMixedBuildsEnabled, hrm] at h
      obtain ⟨hev, hw, hout⟩ := h
      obtain ⟨he, ho, hd, hx⟩ := runMixedModeBuild_ok_elim cfg a extra ev w hrm
      subst hev hw hout
      exact ⟨w, rfl, ho, hd, hx, by simp, Or.inr (Or.inr he), fun _ => he, by simp, by simp,
        by simp, by simp, by simp, fun _ => rfl⟩
  | GenerateQueryView =>
      rcases writes with _ | ⟨⟨df, o, deps⟩, rest⟩ <;>
        simp [doChosenActivity, isMixedBuildsEnabled, runBlueprintModel, writeDepFile] at h
      obtain ⟨hev, ⟨⟨hdf, ho, hdeps⟩, hrest⟩, hout⟩ := h
      subst hev hdf ho hdeps hrest hout
      refine ⟨_, rfl, rfl, rfl, ?_, by simp, Or.inl rfl, by simp [isMixedBuildsEnabled],
        by simp, by simp, fun _ => rfl, by simp, by simp, by simp [isMixedBuildsEnabled]⟩
      intro x hx
      simp [List.mem_append]
      tauto
  | GenerateModuleGraph =>
      rcases writes with _ | ⟨⟨df, o, deps⟩, rest⟩ <;>
        simp [doChosenActivity, isMixedBuildsEnabled, runBlueprintModel, writeDepFile] at h
      obtain ⟨hev, ⟨⟨hdf, ho, hdeps⟩, hrest⟩, hout⟩ := h
      subst hev hdf ho hdeps hrest hout
      refine ⟨_, rfl, rfl, rfl, ?_, by simp, Or.inr (Or.inl rfl),
        by simp [isMixedBuildsEnabled], fun _ => rfl, by simp, by simp, by simp, by simp,
        by simp [isMixedBuildsEnabled]⟩
      intro x hx
      simp [List.mem_append]
      tauto
  | GenerateDocFile =>
      rcases writes with _ | ⟨⟨df, o, deps⟩, rest⟩ <;>
        simp [doChosenActivity, isMixedBuildsEnabled, runBlueprintModel, writeDepFile] at h
      obtain ⟨hev, ⟨⟨hdf, ho, hdeps⟩, hrest⟩, hout⟩ := h
      subst hev hdf ho hdeps hrest hout
      refine ⟨_, rfl, rfl, rfl, ?_, by simp, Or.inl rfl, by simp [isMixedBuildsEnabled],
        by simp, by simp, by simp, by simp, fun _ => rfl, by simp [isMixedBuildsEnabled]⟩
      intro x hx
      simp [List.mem_append]
      tauto
  | AnalysisNoBazel =>
      rcases writes with _ | ⟨⟨df, o, deps⟩, rest⟩ <;>
        simp [doChosenActivity, isMixedBuildsEnabled, runBlueprintModel, writeDepFile] at h
      obtain ⟨hev, ⟨⟨hdf, ho, hdeps⟩, hrest⟩, hout⟩ := h
      subst hev hdf ho hdeps hrest hout
      refine ⟨_, rfl, rfl, rfl, ?_, by simp, Or.inr (Or.inl rfl),
        by simp [isMixedBuildsEnabled], by simp, by simp, by simp, by simp, by simp,
        fun _ => rfl⟩
      intro x hx
      simp [List.mem_append]
      tauto

/-- C3 counterexample: a run in GenerateDocFile mode, a mode other than
GenerateModuleGraph, Bp2build and GenerateQueryView, flushes its record keyed
by the doc file, not by the ninja output file build.ninja, refuting the claim
that the record is keyed by the ninja output file in every such mode. -/
theorem docfile_mode_depfile_key_counterexample :
    selectBuildMode (parseFlags flagsDoc) = SoongBuildMode.GenerateDocFile ∧
    doChosenActivity SoongBuildMode.GenerateDocFile cfg0 (parseFlags flagsDoc) [] =
      Except.ok ([Event.pipelineStart, Event.depFileFlushed],
        [DepFileWrite.mk "T/docs/soong_build.html.d" "docs/soong_build.html"
          ["bp1", "glob1"]],
        "docs/soong_build.html") ∧
    (parseFlags flagsDoc).outFile = "build.ninja" ∧
    (("docs/soong_build.html" == "build.ninja") = false) := by
  refine ⟨rfl, rfl, rfl, rfl⟩

/-- C3 (amended): every run that completes successfully flushes exactly one
make-style dependency record, at the path obtained by joining the top
directory with the terminal output path plus ".d", keyed by that terminal
output path; in GenerateModuleGraph mode the record is keyed by the
module-graph file, in Bp2build mode by the bp2build marker, in
GenerateQueryView mode by the queryview marker, in ApiBp2build mode by the
api_bp2build workspace marker, in GenerateDocFile mode by the doc file, and
in normal and mixed-build runs by the ninja output file. -/
theorem depfile_flushed_once_keyed_by_mode
    (mode : SoongBuildMode) (cfg : RunEnv) (a : Args) (extra : List String)
    (events : List Event) (writes : List DepFileWrite) (out : String)
    (h : doChosenActivity mode cfg a extra = Except.ok (events, writes, out)) :
    (∃ w : DepFileWrite, writes = [w] ∧ w.output = out ∧
      w.depFile = joinPath a.topDir (out ++ ".d")) ∧
    (mode = SoongBuildMode.GenerateModuleGraph → out = a.moduleGraphFile) ∧
    (mode = SoongBuildMode.Bp2build → out = a.bp2buildMarker) ∧
    (mode = SoongBuildMode.GenerateQueryView → out = a.bazelQueryViewDir ++ ".marker") ∧
    (mode = SoongBuildMode.ApiBp2build →
      out = joinPath a.soongOutDir "api_bp2build" ++ ".marker") ∧
    (mode = SoongBuildMode.GenerateDocFile → out = a.docFile) ∧
    ((mode = SoongBuildMode.AnalysisNoBazel ∨ isMixedBuildsEnabled mode = true) →
      out = a.outFile) := by
  obtain ⟨w, h1, h2, h3, _, _, _, _, h8, h9, h10, h11, h12, h13⟩ :=
    doChosenActivity_ok_elim mode cfg a extra events writes out h
  exact ⟨⟨w, h1, h2, h3⟩, h8, h9, h10, h11, h12, h13⟩

/-- Witness for C3: a successful GenerateModuleGraph run flushes one record
keyed by the module-graph file. -/
theorem depfile_flushed_once_keyed_by_mode_witness :
    (∃ w : DepFileWrite,
      [DepFileWrite.mk "T/graph.json.d" "graph.json" ["bp1", "glob1"]] = [w] ∧
      w.output = "graph.json" ∧
      w.depFile = joinPath (parseFlags flagsGraph).topDir ("graph.json" ++ ".d")) ∧
    (SoongBuildMode.GenerateModuleGraph = SoongBuildMode.GenerateModuleGraph →
      "graph.json" = (parseFlags flagsGraph).moduleGraphFile) ∧
    (SoongBuildMode.GenerateModuleGraph = SoongBuildMode.Bp2build →
      "graph.json" = (parseFlags flagsGraph).bp2buildMarker) ∧
    (SoongBuildMode.GenerateModuleGraph = SoongBuildMode.GenerateQueryView →
      "graph.json" = (parseFlags flagsGraph).bazelQueryViewDir ++ ".marker") ∧
    (SoongBuildMode.GenerateModuleGraph = SoongBuildMode.ApiBp2build →
      "graph.json" = joinPath (parseFlags flagsGraph).soongOutDir "api_bp2build" ++ ".marker") ∧
    (SoongBuildMode.GenerateModuleGraph = SoongBuildMode.GenerateDocFile →
      "graph.json" = (parseFlags flagsGraph).docFile) ∧
    ((SoongBuildMode.GenerateModuleGraph = SoongBuildMode.AnalysisNoBazel ∨
        isMixedBuildsEnabled SoongBuildMode.GenerateModuleGraph = true) →
      "graph.json" = (parseFlags flagsGraph).outFile) :=
  depfile_flushed_once_keyed_by_mode SoongBuildMode.GenerateModuleGraph cfg0
    (parseFlags flagsGraph) []
    [Event.pipelineStart, Event.buildActionsFinalized, Event.depFileFlushed]
    [DepFileWrite.mk "T/graph.json.d" "graph.json" ["bp1", "glob1"]] "graph.json" rfl

/-- C4: in mixed-build mode the dependency paths declared by the external
work-partitioning system, read from the file named by the configuration, end
up in the dependency list of the flushed record, and a failure to read that
file aborts the whole run fatally (the panic at main.go line 179, modelled as
the error result) with no retry. -/
theorem runMixedModeBuild_bazel_deps (cfg : RunEnv) (a : Args) (extra : List String) :
    (∀ e : String, cfg.bazelReadResult = Except.error e →
      runMixedModeBuild cfg a extra =
        Except.error ("Bazel deps file not found: " ++ e)) ∧
    (∀ bazelPaths : List String, cfg.bazelReadResult = Except.ok bazelPaths →
      ∃ ev : List Event, ∃ w : DepFileWrite,
        runMixedModeBuild cfg a extra = Except.ok (ev, w) ∧
        ∀ p ∈ bazelPaths, p ∈ w.deps) := by
  constructor
  · intro e he
    simp [runMixedModeBuild, runBlueprintModel, he]
  · intro bazelPaths hp
    refine ⟨[Event.pipelineStart, Event.hookInvoked, Event.buildActionsFinalized,
        Event.depFileFlushed],
      writeDepFile a.topDir a.outFile
        (cfg.blueprintDeps ++ extra ++ bazelPaths ++ cfg.globListFiles), ?_, ?_⟩
    · simp [runMixedModeBuild, runBlueprintModel, hp]
    · intro p hpp
      simp [writeDepFile, List.mem_append]
      tauto

/-- Witness for C4: with a failing dependency-list read the mixed run aborts;
with a successful read the declared path bz1 is listed in the flushed record. -/
theorem runMixedModeBuild_bazel_deps_witness :
    runMixedModeBuild cfgBazelErr (parseFlags flagsProd) [] =
      Except.error ("Bazel deps file not found: " ++ "boom") ∧
    ∃ ev : List Event, ∃ w : DepFileWrite,
      runMixedModeBuild cfg0 (parseFlags flagsProd) [] = Except.ok (ev, w) ∧
      ∀ p ∈ ["bz1"], p ∈ w.deps :=
  ⟨(runMixedModeBuild_bazel_deps cfgBazelErr (parseFlags flagsProd) []).1 "boom" rfl,
   (runMixedModeBuild_bazel_deps cfg0 (parseFlags flagsProd) []).2 ["bz1"] rfl⟩

/-- C5: in every run that completes successfully the phases happen in a fixed
order with no backward transition: mode selection completes before the
analysis pipeline starts; in mixed mode the registered mixed-build hook fires
strictly before build actions are finalized; and the dependency-record flush
happens strictly before the used-environment flush. -/
theorem mainRun_phase_order
    (f : CmdFlags) (cfg : RunEnv) (fs : FS) (events : List Event)
    (writes : List DepFileWrite) (out : String) (fs1 : FS)
    (h : mainRun f cfg fs = Except.ok (events, writes, out, fs1)) :
    precedesB Event.modeSelected Event.pipelineStart events = true ∧
    precedesB Event.depFileFlushed Event.usedEnvFlushed events = true ∧
    (isMixedBuildsEnabled (selectBuildMode (parseFlags f)) = true →
      precedesB Event.hookInvoked Event.buildActionsFinalized events = true) := by
  rcases hda : doChosenActivity (selectBuildMode (parseFlags f)) cfg (parseFlags f)
      [cfg.productVariablesFileName, (parseFlags f).usedEnvFile] with e | ⟨ev, ws, fo⟩ <;>
    simp [mainRun, hda] at h
  rcases hwe : writeUsedEnvironmentFile (parseFlags f).usedEnvFile (parseFlags f).topDir
      cfg.envData fo fs with e2 | fs2 <;> simp [hwe] at h
  obtain ⟨hev, hws, hfo, hfs⟩ := h
  subst hev hws hfo hfs
  obtain ⟨w, _, _, _, _, _, hsh, hmx, _, _, _, _, _, _⟩ :=
    doChosenActivity_ok_elim (selectBuildMode (parseFlags f)) cfg (parseFlags f)
      [cfg.productVariablesFileName, (parseFlags f).usedEnvFile] ev ws fo hda
  refine ⟨?_, ?_, ?_⟩
  · rcases hsh with he | he | he <;> subst he <;> decide
  · rcases hsh with he | he | he <;> subst he <;> decide
  · intro hm
    rw [hmx hm]
    decide

/-- Witness for C5: a successful mixed-production run shows mode selection
before pipeline start, the hook before action finalization, and the depfile
flush before the environment flush. -/
theorem mainRun_phase_order_witness :
    precedesB Event.modeSelected Event.pipelineStart
      [Event.modeSelected, Event.pipelineStart, Event.hookInvoked,
        Event.buildActionsFinalized, Event.depFileFlushed, Event.usedEnvFlushed] = true ∧
    precedesB Event.depFileFlushed Event.usedEnvFlushed
      [Event.modeSelected, Event.pipelineStart, Event.hookInvoked,
        Event.buildActionsFinalized, Event.depFileFlushed, Event.usedEnvFlushed] = true ∧
    (isMixedBuildsEnabled (selectBuildMode (parseFlags flagsProd)) = true →
      precedesB Event.hookInvoked Event.buildActionsFinalized
        [Event.modeSelected, Event.pipelineStart, Event.hookInvoked,
          Event.buildActionsFinalized, Event.depFileFlushed, Event.usedEnvFlushed] = true) :=
  mainRun_phase_order flagsProd cfg0 fs0
    [Event.modeSelected, Event.pipelineStart, Event.hookInvoked,
      Event.buildActionsFinalized, Event.depFileFlushed, Event.usedEnvFlushed]
    [DepFileWrite.mk "T/build.ninja.d" "build.ninja"
      (["bp1"] ++ ["product.json", "u"] ++ ["bz1"] ++ ["glob1"])]
    "build.ninja"
    (touch (writeFile fs0 (joinPath "T" "u") "ENV") (joinPath "T" "build.ninja")) rfl

/-- C6: in the two modes that plant a symlink forest, Bp2build and
ApiBp2build, every directory the planter reports as read is listed in the
single dependency record flushed for the run's terminal output marker. -/
theorem symlinkForestDeps_flushed
    (mode : SoongBuildMode) (cfg : RunEnv) (a : Args) (extra : List String)
    (events : List Event) (writes : List DepFileWrite) (out : String)
    (hm : mode = SoongBuildMode.Bp2build ∨ mode = SoongBuildMode.ApiBp2build)
    (h : doChosenActivity mode cfg a extra = Except.ok (events, writes, out)) :
    ∃ w : DepFileWrite, writes = [w] ∧ ∀ d ∈ cfg.symlinkForestDeps, d ∈ w.deps := by
  obtain ⟨w, h1, _, _, _, h5, _⟩ :=
    doChosenActivity_ok_elim mode cfg a extra events writes out h
  exact ⟨w, h1, h5 hm⟩

/-- Witness for C6: in a successful bp2build run the visited directory sym1
appears in the flushed record. -/
theorem symlinkForestDeps_flushed_witness :
    ∃ w : DepFileWrite,
      [DepFileWrite.mk "T/bp2build.marker.d" "bp2build.marker"
        ["bp1", "glob1", "sym1", "cg1"]] = [w] ∧
      ∀ d ∈ cfg0.symlinkForestDeps, d ∈ w.deps :=
  symlinkForestDeps_flushed SoongBuildMode.Bp2build cfg0 (parseFlags flagsBp2) []
    [Event.pipelineStart, Event.depFileFlushed]
    [DepFileWrite.mk "T/bp2build.marker.d" "bp2build.marker"
      ["bp1", "glob1", "sym1", "cg1"]]
    "bp2build.marker" (Or.inl rfl) rfl

/-- C10: in every mode, the dependency record flushed by a successful run
lists the product-variables file name and the used-environment snapshot file
path, which main seeds into the accumulator at run start. -/
theorem extraNinjaDeps_in_depfile
    (f : CmdFlags) (cfg : RunEnv) (fs : FS) (events : List Event)
    (writes : List DepFileWrite) (out : String) (fs1 : FS)
    (h : mainRun f cfg fs = Except.ok (events, writes, out, fs1)) :
    ∀ w ∈ writes, cfg.productVariablesFileName ∈ w.deps ∧
      (parseFlags f).usedEnvFile ∈ w.deps := by
  rcases hda : doChosenActivity (selectBuildMode (parseFlags f)) cfg (parseFlags f)
      [cfg.productVariablesFileName, (parseFlags f).usedEnvFile] with e | ⟨ev, ws, fo⟩ <;>
    simp [mainRun, hda] at h
  rcases hwe : writeUsedEnvironmentFile (parseFlags f).usedEnvFile (parseFlags f).topDir
      cfg.envData fo fs with e2 | fs2 <;> simp [hwe] at h
  obtain ⟨hev, hws, hfo, hfs⟩ := h
  subst hev hws hfo hfs
  obtain ⟨w0, h1, _, _, h4, _⟩ :=
    doChosenActivity_ok_elim (selectBuildMode (parseFlags f)) cfg (parseFlags f)
      [cfg.productVariablesFileName, (parseFlags f).usedEnvFile] ev ws fo hda
  subst h1
  intro w hw
  rcases List.mem_singleton.mp hw with rfl
  exact ⟨h4 cfg.productVariablesFileName (by simp), h4 (parseFlags f).usedEnvFile (by simp)⟩

/-- Witness for C10: the record flushed by a successful mixed-production run
lists product.json and the used-env path u. -/
theorem extraNinjaDeps_in_depfile_witness :
    cfg0.productVariablesFileName ∈
      (DepFileWrite.mk "T/build.ninja.d" "build.ninja"
        (["bp1"] ++ ["product.json", "u"] ++ ["bz1"] ++ ["glob1"])).deps ∧
    (parseFlags flagsProd).usedEnvFile ∈
      (DepFileWrite.mk "T/build.ninja.d" "build.ninja"
        (["bp1"] ++ ["product.json", "u"] ++ ["bz1"] ++ ["glob1"])).deps :=
  extraNinjaDeps_in_depfile flagsProd cfg0 fs0
    [Event.modeSelected, Event.pipelineStart, Event.hookInvoked,
      Event.buildActionsFinalized, Event.depFileFlushed, Event.usedEnvFlushed]
    [DepFileWrite.mk "T/build.ninja.d" "build.ninja"
      (["bp1"] ++ ["product.json", "u"] ++ ["bz1"] ++ ["glob1"])]
    "build.ninja"
    (touch (writeFile fs0 (joinPath "T" "u") "ENV") (joinPath "T" "build.ninja")) rfl
    (DepFileWrite.mk "T/build.ninja.d" "build.ninja"
      (["bp1"] ++ ["product.json", "u"] ++ ["bz1"] ++ ["glob1"]))
    (by simp)

end SoongBuild
